import Mathlib

/-!
Shallow embedding of `principalmapper/graphing/lambda_edges.py`
(`LambdaEdgeChecker.return_edges`), the edge-discovery algorithm for the
Lambda (serverless-function) privilege-escalation vector.

Modelling conventions:
* Machine state is passed explicitly.  The method's only write effect is
  `output.write(...)`; we model the diagnostic sink as the list of edges
  whose "Found new edge" line is written (the exact `describe_edge`
  formatting lives outside the checker and is abstracted to the edge value).
* The Policy Evaluation Port (`resource_policy_authorization`,
  `local_check_authorization`) is external to this file's source; it is a
  parameter (`Ports`), a pair of pure functions, exactly the contract the
  checker calls.
* The Function Inventory (session, regional clients, pagination) is
  modelled as an optional `Session` supplying per-region pages of function
  records, flattened exactly as the gathering loop does.
* `return_edges_core` is the double loop over ordered principal pairs
  (lines 41-124 of the source); it returns `(result, sink)` where `result`
  is the list the Python function returns and `sink` the sequence of edges
  written to the diagnostic sink.
-/

/-- Modelled from the spec: the resource-policy evaluation verdict
(`ResourcePolicyEvalResult`, defined in `querying/local_policy_simulation.py`
which is outside the provided source tree).  The spec fixes exactly three
outcomes: no statement matched, an explicit deny matched, an explicit allow
matched for the requesting service. -/
inductive ResourcePolicyEvalResult where
  | NO_MATCH : ResourcePolicyEvalResult
  | EXPLICIT_DENY : ResourcePolicyEvalResult
  | SERVICE_MATCH : ResourcePolicyEvalResult
deriving DecidableEq, Repr

/-- A principal (Node): ARN, admin flag, optional trust policy document
(opaque to the checker; only handed to the evaluation port). -/
structure Node where
  arn : String
  is_admin : Bool
  trust_policy : Option String
deriving DecidableEq, Repr

/-- An edge: source principal can reach destination principal, with a
human-readable reason naming the mechanism. -/
structure Edge where
  source : Node
  destination : Node
  reason : String
deriving DecidableEq, Repr

/-- A deployed Lambda function record, as consumed by the checker: the
fields `FunctionArn` and `Role` of the listing dictionaries. -/
structure FunctionResource where
  functionArn : String
  role : String
deriving DecidableEq, Repr

/-- The Policy Evaluation Port: the two pure functions the checker calls.
`resource_policy_authorization service_principal account_id policy action
resource context debug` and `local_check_authorization node action resource
context debug`, with argument shapes matching the call sites in the
source. -/
structure Ports where
  resource_policy_authorization :
    String → String → Option String → String → String →
      List (String × String) → Bool → ResourcePolicyEvalResult
  local_check_authorization :
    Node → String → String → List (String × String) → Bool → Bool

/-- Splits a character list on a separator character, mirroring a string
`split` on a one-character separator. -/
def splitOnChar (c : Char) : List Char → List (List Char)
  | [] => [[]]
  | x :: xs =>
    let r := splitOnChar c xs
    if x = c then [] :: r
    else
      match r with
      | [] => [[x]]
      | y :: ys => (x :: y) :: ys

/-- Modelled from the spec: `arns.get_account_id` (in `util/arns.py`,
outside the provided source tree) extracts the owning account id, the fifth
colon-separated field of an ARN. -/
def get_account_id (arn : String) : String :=
  String.mk ((splitOnChar ':' arn.data).getD 4 [])

/-- Substring test on character lists: does `pat` occur contiguously in the
second list?  Used for the Python `in` test on strings. -/
def containsChars (pat : List Char) : List Char → Bool
  | [] => List.isPrefixOf pat []
  | c :: rest => List.isPrefixOf pat (c :: rest) || containsChars pat rest

/-- Python `pat in s` on strings: `str_contains s pat` is true when `pat`
occurs as a contiguous substring of `s`. -/
def str_contains (s pat : String) : Bool :=
  containsChars pat.data s.data

/-- Reason string of the mechanism-A (new-function) edge, line 84 of the
source. -/
def new_function_reason : String :=
  "can use Lambda to create a new function with arbitrary code, then pass and access"

/-- Reason string of the mechanism-B (edit existing function) edge,
line 106 of the source, with the function ARN interpolated. -/
def edit_function_reason (functionArn : String) : String :=
  "can use Lambda to edit an existing function (" ++ functionArn ++ ") to access"

/-- Reason string of the mechanism-C (repurpose existing function) edge,
line 117 of the source, with the function ARN interpolated. -/
def edit_function_code_reason (functionArn : String) : String :=
  "can use Lambda to edit an existing function\x27s code (" ++ functionArn ++
    "), then pass and access"

/-- Lines 56-64: the resource-policy check that the destination role can be
assumed by `lambda.amazonaws.com`. -/
def assume_role_sim (P : Ports) (debug : Bool) (node_source node_destination : Node) :
    ResourcePolicyEvalResult :=
  P.resource_policy_authorization "lambda.amazonaws.com" (get_account_id node_source.arn)
    node_destination.trust_policy "sts:AssumeRole" node_destination.arn [] debug

/-- Lines 70-73: `can_pass_role`, the local check that the source may pass
the destination role to the Lambda service. -/
def pass_role_check (P : Ports) (debug : Bool) (node_source node_destination : Node) : Bool :=
  P.local_check_authorization node_source "iam:PassRole" node_destination.arn
    [("iam:PassedToService", "lambda.amazonaws.com")] debug

/-- Lines 77-79: `can_create_function`, the local check for
`lambda:CreateFunction` on the wildcard resource. -/
def create_function_check (P : Ports) (debug : Bool) (node_source : Node) : Bool :=
  P.local_check_authorization node_source "lambda:CreateFunction" "*" [] debug

/-- Lines 76-87: mechanism A.  The edge appended to `result` (and written
to the sink) when both `can_pass_role` and `can_create_function` hold. -/
def mechanism_a_edges (P : Ports) (debug : Bool) (node_source node_destination : Node) :
    List Edge :=
  if pass_role_check P debug node_source node_destination then
    if create_function_check P debug node_source then
      [⟨node_source, node_destination, new_function_reason⟩]
    else []
  else []

/-- Lines 89-97: `func_data`, the per-function code-update and
configuration-update authorization checks, computed against the whole
function inventory. -/
def func_data (P : Ports) (debug : Bool) (node_source : Node)
    (function_list : List FunctionResource) : List (FunctionResource × Bool × Bool) :=
  function_list.map fun func =>
    (func,
      P.local_check_authorization node_source "lambda:UpdateFunctionCode"
        func.functionArn [] debug,
      P.local_check_authorization node_source "lambda:UpdateFunctionConfiguration"
        func.functionArn [] debug)

/-- Lines 100-109: mechanism B.  Scan `func_data` for the first function
whose execution role equals the destination ARN and whose code the source
may update; the edge is written to the sink and the scan stops (the `break`).
A role match without code authorization does not stop the scan. -/
def edit_existing_scan (node_source node_destination : Node) :
    List (FunctionResource × Bool × Bool) → List Edge
  | [] => []
  | (func, can_change_code, _) :: rest =>
    if node_destination.arn = func.role then
      if can_change_code then
        [⟨node_source, node_destination, edit_function_reason func.functionArn⟩]
      else edit_existing_scan node_source node_destination rest
    else edit_existing_scan node_source node_destination rest

/-- Lines 112-122: mechanism C.  Scan `func_data` for the first function
whose configuration and code the source may update, provided
`can_pass_role`; the edge is written to the sink and the scan stops. -/
def repurpose_scan (node_source node_destination : Node) (can_pass_role : Bool) :
    List (FunctionResource × Bool × Bool) → List Edge
  | [] => []
  | (func, can_change_code, can_change_config) :: rest =>
    if can_change_config && can_change_code && can_pass_role then
      [⟨node_source, node_destination, edit_function_code_reason func.functionArn⟩]
    else repurpose_scan node_source node_destination can_pass_role rest

/-- Lines 43-122: the body of the double loop for one ordered pair.
Returns `(appended to result, written to the sink)`.  Mechanism A edges are
both appended and written; mechanism B and C edges are only written (the
source never appends them to `result`). -/
def pair_edges (P : Ports) (debug : Bool) (function_list : List FunctionResource)
    (node_source node_destination : Node) : List Edge × List Edge :=
  if node_source = node_destination then ([], [])
  else if node_source.is_admin then ([], [])
  else if !(str_contains node_destination.arn ":role/") then ([], [])
  else if assume_role_sim P debug node_source node_destination ≠
      ResourcePolicyEvalResult.SERVICE_MATCH then ([], [])
  else
    (mechanism_a_edges P debug node_source node_destination,
      mechanism_a_edges P debug node_source node_destination
        ++ edit_existing_scan node_source node_destination
            (func_data P debug node_source function_list)
        ++ repurpose_scan node_source node_destination
            (pass_role_check P debug node_source node_destination)
            (func_data P debug node_source function_list))

/-- Lines 41-124: the full pass over ordered pairs.  First component: the
list the Python method returns; second component: the sequence of edges
written to the diagnostic sink, in iteration order. -/
def return_edges_core (P : Ports) (debug : Bool) (function_list : List FunctionResource)
    (nodes : List Node) : List Edge × List Edge :=
  (nodes.flatMap fun node_source =>
      nodes.flatMap fun node_destination =>
        (pair_edges P debug function_list node_source node_destination).1,
    nodes.flatMap fun node_source =>
      nodes.flatMap fun node_destination =>
        (pair_edges P debug function_list node_source node_destination).2)

/-- The session handle (lines 21-31): when present it supplies the Lambda
regions and, per region, the paginated pages of function records. -/
structure Session where
  regions : List String
  list_functions_pages : String → List (List FunctionResource)

/-- Lines 26-39: gathering `function_list` from every regional client's
paginator, flattened in order. -/
def gather_function_list (session : Session) : List FunctionResource :=
  session.regions.flatMap fun region =>
    (session.list_functions_pages region).flatMap fun page => page

/-- The full `return_edges` method (lines 18-124): when the session is
absent (offline mode) no clients are built and `function_list` is empty;
the pair loop runs either way. -/
def return_edges (P : Ports) (session : Option Session) (nodes : List Node)
    (debug : Bool) : List Edge × List Edge :=
  match session with
  | none => return_edges_core P debug [] nodes
  | some s => return_edges_core P debug (gather_function_list s) nodes

/-- Like `pair_edges` but taking the precomputed `func_data` instead of
recomputing it from the inventory: the body is otherwise identical. -/
def pair_edges_with_data (P : Ports) (debug : Bool)
    (fd : List (FunctionResource × Bool × Bool)) (node_source node_destination : Node) :
    List Edge × List Edge :=
  if node_source = node_destination then ([], [])
  else if node_source.is_admin then ([], [])
  else if !(str_contains node_destination.arn ":role/") then ([], [])
  else if assume_role_sim P debug node_source node_destination ≠
      ResourcePolicyEvalResult.SERVICE_MATCH then ([], [])
  else
    (mechanism_a_edges P debug node_source node_destination,
      mechanism_a_edges P debug node_source node_destination
        ++ edit_existing_scan node_source node_destination fd
        ++ repurpose_scan node_source node_destination
            (pass_role_check P debug node_source node_destination) fd)

/-- The hoisted implementation suggested by the spec: `func_data` is
computed once per source, before the destination loop, and reused for every
destination of that source. -/
def return_edges_hoisted (P : Ports) (debug : Bool) (function_list : List FunctionResource)
    (nodes : List Node) : List Edge × List Edge :=
  (nodes.flatMap fun node_source =>
      let fd := func_data P debug node_source function_list
      nodes.flatMap fun node_destination =>
        (pair_edges_with_data P debug fd node_source node_destination).1,
    nodes.flatMap fun node_source =>
      let fd := func_data P debug node_source function_list
      nodes.flatMap fun node_destination =>
        (pair_edges_with_data P debug fd node_source node_destination).2)

/-- The Policy Evaluation Port with fallible evaluators: either function
may raise (modelled as `Except.error` carrying the exception message). -/
structure PortsE where
  resource_policy_authorization :
    String → String → Option String → String → String →
      List (String × String) → Bool → Except String ResourcePolicyEvalResult
  local_check_authorization :
    Node → String → String → List (String × String) → Bool → Except String Bool

/-- `func_data` under fallible ports: the first raising check aborts, as an
uncaught Python exception would. -/
def func_dataE (P : PortsE) (debug : Bool) (node_source : Node)
    (function_list : List FunctionResource) :
    Except String (List (FunctionResource × Bool × Bool)) :=
  function_list.mapM fun func => do
    let can_change_code ← P.local_check_authorization node_source
      "lambda:UpdateFunctionCode" func.functionArn [] debug
    let can_change_config ← P.local_check_authorization node_source
      "lambda:UpdateFunctionConfiguration" func.functionArn [] debug
    pure (func, can_change_code, can_change_config)

/-- The per-pair body under fallible ports.  The source has no
`try`/`except` around any port call, so an error anywhere propagates. -/
def pair_edgesE (P : PortsE) (debug : Bool) (function_list : List FunctionResource)
    (node_source node_destination : Node) : Except String (List Edge × List Edge) := do
  if node_source = node_destination then return ([], [])
  if node_source.is_admin then return ([], [])
  if !(str_contains node_destination.arn ":role/") then return ([], [])
  let sim_result ← P.resource_policy_authorization "lambda.amazonaws.com"
    (get_account_id node_source.arn) node_destination.trust_policy "sts:AssumeRole"
    node_destination.arn [] debug
  if sim_result ≠ ResourcePolicyEvalResult.SERVICE_MATCH then return ([], [])
  let can_pass_role ← P.local_check_authorization node_source "iam:PassRole"
    node_destination.arn [("iam:PassedToService", "lambda.amazonaws.com")] debug
  let a_edges ←
    if can_pass_role then do
      let can_create ← P.local_check_authorization node_source "lambda:CreateFunction"
        "*" [] debug
      pure (if can_create then
        [(⟨node_source, node_destination, new_function_reason⟩ : Edge)] else [])
    else pure ([] : List Edge)
  let fd ← func_dataE P debug node_source function_list
  pure (a_edges,
    a_edges ++ edit_existing_scan node_source node_destination fd
      ++ repurpose_scan node_source node_destination can_pass_role fd)

/-- The full pass under fallible ports: the nested loops, threaded through
`Except`, so the first raising pair aborts the whole call (faithful to the
absence of any exception handling in the source). -/
def return_edgesE (P : PortsE) (debug : Bool) (function_list : List FunctionResource)
    (nodes : List Node) : Except String (List Edge × List Edge) :=
  nodes.foldlM
    (fun acc node_source =>
      nodes.foldlM
        (fun acc2 node_destination => do
          let pe ← pair_edgesE P debug function_list node_source node_destination
          pure (acc2.1 ++ pe.1, acc2.2 ++ pe.2))
        acc)
    (([], []) : List Edge × List Edge)

/-- Explicit machine state for the checker invocation: the principal set
and function inventory it reads, and the diagnostic sink it appends to. -/
structure CheckerState where
  nodes : List Node
  function_list : List FunctionResource
  sink : List Edge
deriving DecidableEq, Repr

/-- The state-passing rendering of one checker invocation: the sink
receives the written edges, the method's return value is the result list.
Nothing else in the state is touched (the source contains no assignment to
any node or function record). -/
def run_checker (P : Ports) (debug : Bool) (st : CheckerState) :
    CheckerState × List Edge :=
  let out := return_edges_core P debug st.function_list st.nodes
  ({ st with sink := st.sink ++ out.2 }, out.1)

/-! Concrete principals, functions and ports used to exercise the
algorithm on the spec's scenarios. -/

/-- A non-admin user principal. -/
def alice : Node :=
  ⟨"arn:aws:iam::000000000000:user/alice", false, none⟩

/-- A role whose trust policy (by the concrete ports below) lets
`lambda.amazonaws.com` assume it. -/
def roleR : Node :=
  ⟨"arn:aws:iam::000000000000:role/RoleR", false, some "trust-allow-lambda"⟩

/-- A role whose trust policy does not authorize the Lambda service. -/
def roleS : Node :=
  ⟨"arn:aws:iam::000000000000:role/RoleS", false, some "no-lambda"⟩

/-- A role whose trust policy document makes the evaluation port raise. -/
def roleBad : Node :=
  ⟨"arn:aws:iam::000000000000:role/RoleBad", false, some "malformed"⟩

/-- A live function whose execution role is `roleR`. -/
def funcF : FunctionResource :=
  ⟨"arn:aws:lambda:us-east-1:000000000000:function:F",
    "arn:aws:iam::000000000000:role/RoleR"⟩

/-- A live function whose execution role differs from `roleR`. -/
def funcG : FunctionResource :=
  ⟨"arn:aws:lambda:us-east-1:000000000000:function:G",
    "arn:aws:iam::000000000000:role/OtherRole"⟩

/-- A one-region session holding exactly `funcF`. -/
def session3 : Session := ⟨["us-east-1"], fun _ => [[funcF]]⟩

/-- A one-region session holding exactly `funcG`. -/
def session4 : Session := ⟨["us-east-1"], fun _ => [[funcG]]⟩

/-- Trust-policy oracle shared by the concrete ports: `SERVICE_MATCH`
exactly for the document `trust-allow-lambda`, `NO_MATCH` otherwise. -/
def trust_oracle (trust_policy : Option String) : ResourcePolicyEvalResult :=
  if trust_policy = some "trust-allow-lambda" then ResourcePolicyEvalResult.SERVICE_MATCH
  else ResourcePolicyEvalResult.NO_MATCH

/-- Scenario-1-style ports: every principal may pass roles to Lambda and
create functions; nothing else is authorized. -/
def ports1 : Ports :=
  { resource_policy_authorization := fun _ _ trust_policy _ _ _ _ => trust_oracle trust_policy,
    local_check_authorization := fun _ action _ _ _ =>
      action == "iam:PassRole" || action == "lambda:CreateFunction" }

/-- Scenario-3 ports: code updates are authorized, pass-role and
create-function are not. -/
def ports3 : Ports :=
  { resource_policy_authorization := fun _ _ trust_policy _ _ _ _ => trust_oracle trust_policy,
    local_check_authorization := fun _ action _ _ _ =>
      action == "lambda:UpdateFunctionCode" }

/-- Scenario-4 ports: pass-role, wildcard create-function, and both update
actions on `funcG` are authorized. -/
def ports4 : Ports :=
  { resource_policy_authorization := fun _ _ trust_policy _ _ _ _ => trust_oracle trust_policy,
    local_check_authorization := fun _ action resource _ _ =>
      action == "iam:PassRole" || action == "lambda:CreateFunction" ||
        ((action == "lambda:UpdateFunctionCode" ||
          action == "lambda:UpdateFunctionConfiguration") && resource == funcG.functionArn) }

/-- Fallible ports that raise on the `malformed` trust-policy document and
otherwise behave like `ports1`. -/
def portsE_bad : PortsE :=
  { resource_policy_authorization := fun _ _ trust_policy _ _ _ _ =>
      if trust_policy = some "malformed" then Except.error "malformed policy document"
      else pure (trust_oracle trust_policy),
    local_check_authorization := fun _ action _ _ _ =>
      pure (action == "iam:PassRole" || action == "lambda:CreateFunction") }

/-! Helper lemmas about the per-pair and per-pass semantics. -/

/-- Any edge produced by mechanism A for a pair is exactly the new-function
edge of that pair. -/
theorem mechanism_a_edges_mem (P : Ports) (debug : Bool) (s d : Node) (e : Edge)
    (he : e ∈ mechanism_a_edges P debug s d) : e = ⟨s, d, new_function_reason⟩ := by
  unfold mechanism_a_edges at he
  split_ifs at he <;> simp_all

/-- Any edge produced by the mechanism-B scan names the scanned pair. -/
theorem edit_existing_scan_mem (s d : Node) (e : Edge)
    (fd : List (FunctionResource × Bool × Bool)) (he : e ∈ edit_existing_scan s d fd) :
    e.source = s ∧ e.destination = d := by
  induction fd with
  | nil => simp [edit_existing_scan] at he
  | cons p rest ih =>
    obtain ⟨func, ccode, cconf⟩ := p
    unfold edit_existing_scan at he
    split_ifs at he
    · simp at he
      subst he
      exact ⟨rfl, rfl⟩
    all_goals exact ih he

/-- Any edge produced by the mechanism-C scan names the scanned pair. -/
theorem repurpose_scan_mem (s d : Node) (cpr : Bool) (e : Edge)
    (fd : List (FunctionResource × Bool × Bool)) (he : e ∈ repurpose_scan s d cpr fd) :
    e.source = s ∧ e.destination = d := by
  induction fd with
  | nil => simp [repurpose_scan] at he
  | cons p rest ih =>
    obtain ⟨func, ccode, cconf⟩ := p
    unfold repurpose_scan at he
    split_ifs at he
    · simp at he
      subst he
      exact ⟨rfl, rfl⟩
    all_goals exact ih he

/-- Edges appended to `result` for a pair are exactly the new-function edge
of that pair, and every appended edge is also written to the sink. -/
theorem pair_edges_fst_mem (P : Ports) (debug : Bool) (fl : List FunctionResource)
    (s d : Node) (e : Edge) (he : e ∈ (pair_edges P debug fl s d).1) :
    e = ⟨s, d, new_function_reason⟩ ∧ e ∈ (pair_edges P debug fl s d).2 := by
  unfold pair_edges at he ⊢
  split_ifs at he ⊢
  · simp at he
  · simp at he
  · simp at he
  · simp at he
  · simp only at he
    exact ⟨mechanism_a_edges_mem P debug s d e he,
      List.mem_append_left _ (List.mem_append_left _ he)⟩

/-- Every edge written to the sink for a pair names that pair. -/
theorem pair_edges_snd_mem (P : Ports) (debug : Bool) (fl : List FunctionResource)
    (s d : Node) (e : Edge) (he : e ∈ (pair_edges P debug fl s d).2) :
    e.source = s ∧ e.destination = d := by
  unfold pair_edges at he
  split_ifs at he
  · simp at he
  · simp at he
  · simp at he
  · simp at he
  · simp only at he
    rcases List.mem_append.mp he with h | h
    · rcases List.mem_append.mp h with h2 | h2
      · rw [mechanism_a_edges_mem P debug s d e h2]
        exact ⟨rfl, rfl⟩
      · exact edit_existing_scan_mem s d e _ h2
    · exact repurpose_scan_mem s d _ e _ h

/-- When the resource-policy gate does not return `SERVICE_MATCH` the pair
produces nothing: nothing appended, nothing written. -/
theorem pair_edges_gate_fail (P : Ports) (debug : Bool) (fl : List FunctionResource)
    (s d : Node)
    (h : assume_role_sim P debug s d ≠ ResourcePolicyEvalResult.SERVICE_MATCH) :
    pair_edges P debug fl s d = ([], []) := by
  unfold pair_edges
  split_ifs <;> simp_all

/-- Membership in the returned list of the pass, reduced to the pair level. -/
theorem mem_core_fst (P : Ports) (debug : Bool) (fl : List FunctionResource)
    (nodes : List Node) (e : Edge) :
    e ∈ (return_edges_core P debug fl nodes).1 ↔
      ∃ s ∈ nodes, ∃ d ∈ nodes, e ∈ (pair_edges P debug fl s d).1 := by
  simp [return_edges_core, List.mem_flatMap]

/-- Membership in the sink writes of the pass, reduced to the pair level. -/
theorem mem_core_snd (P : Ports) (debug : Bool) (fl : List FunctionResource)
    (nodes : List Node) (e : Edge) :
    e ∈ (return_edges_core P debug fl nodes).2 ↔
      ∃ s ∈ nodes, ∃ d ∈ nodes, e ∈ (pair_edges P debug fl s d).2 := by
  simp [return_edges_core, List.mem_flatMap]

/-- With an empty function inventory the sink writes of a pair coincide
with the appended edges (the B and C scans are vacuous). -/
theorem pair_edges_nil_inventory (P : Ports) (debug : Bool) (s d : Node) :
    (pair_edges P debug [] s d).2 = (pair_edges P debug [] s d).1 := by
  unfold pair_edges
  split_ifs <;> simp [func_data, edit_existing_scan, repurpose_scan]

/-- With an empty function inventory the whole pass returns exactly what it
writes. -/
theorem return_edges_core_nil_inventory (P : Ports) (debug : Bool) (nodes : List Node) :
    (return_edges_core P debug [] nodes).1 = (return_edges_core P debug [] nodes).2 := by
  unfold return_edges_core
  refine List.flatMap_congr fun s _ => ?_
  exact List.flatMap_congr fun d _ => (pair_edges_nil_inventory P debug s d).symm

/-- If the step function fails (for every accumulator) on some element of
the list, a monadic left fold over `Except` fails. -/
theorem foldlM_error_of_mem {α β : Type} (f : β → α → Except String β) (l : List α)
    (a : α) (ha : a ∈ l) (hf : ∀ b, ∃ msg, f b a = Except.error msg) :
    ∀ init, ∃ msg, l.foldlM f init = Except.error msg := by
  induction l with
  | nil => cases ha
  | cons x xs ih =>
    intro init
    rcases List.mem_cons.mp ha with h | h
    · subst h
      obtain ⟨msg, hmsg⟩ := hf init
      exact ⟨msg, by rw [List.foldlM_cons, hmsg]; rfl⟩
    · cases hx : f init x with
      | error msg => exact ⟨msg, by rw [List.foldlM_cons, hx]; rfl⟩
      | ok b =>
        obtain ⟨msg, hmsg⟩ := ih h b
        exact ⟨msg, by rw [List.foldlM_cons, hx]; exact hmsg⟩

/-! The claim theorems. -/

/-- C1: at the Scenario 3 input (one live function `funcF` running as
`roleR`; `alice` may update its code but lacks pass-role and
create-function), the mechanism-B edge Alice→RoleR is written to the
diagnostic sink, but the method's returned list is empty: the source never
appends mechanism-B edges to `result`, contradicting the claimed
postcondition that exactly one edge is returned. -/
theorem c1_scenario3_edge_written_not_returned :
    return_edges ports3 (some session3) [alice, roleR] false =
      ([], [⟨alice, roleR, edit_function_reason funcF.functionArn⟩]) := by decide

/-- C2: at the Scenario 4 input (`alice` has pass-role and wildcard
create-function and may update code and configuration of `funcG`, whose
role differs from `roleR`), the pair Alice→RoleR yields the mechanism-A
edge in the returned list, while the mechanism-C edge referencing `funcG`
is only written to the sink and is missing from the returned list,
contradicting the claimed two-edge postcondition. -/
theorem c2_scenario4_second_edge_written_not_returned :
    return_edges ports4 (some session4) [alice, roleR] false =
      ([⟨alice, roleR, new_function_reason⟩],
        [⟨alice, roleR, new_function_reason⟩,
          ⟨alice, roleR, edit_function_code_reason funcG.functionArn⟩]) := by decide

/-- C3 counterexample: with the session absent, `return_edges` does not
always return the empty sequence — the pair loop still runs and mechanism A
(which uses only the local authorization checks) can still emit an edge. -/
theorem c3_offline_counterexample :
    (return_edges ports1 none [alice, roleR] false).1 ≠ [] := by decide

/-- C3 (amended): with the session absent `return_edges` degrades
gracefully but not to the empty sequence: the function inventory is empty,
so no mechanism-B or C edge can arise — every edge written (and returned)
is a mechanism-A new-function edge, and the returned list equals the sink
writes; the result may be non-empty. -/
theorem c3_offline_only_new_function_edges (P : Ports) (nodes : List Node)
    (debug : Bool) (e : Edge) (he : e ∈ (return_edges P none nodes debug).2) :
    e.reason = new_function_reason ∧
      (return_edges P none nodes debug).1 = (return_edges P none nodes debug).2 := by
  have hcore : return_edges P none nodes debug = return_edges_core P debug [] nodes := rfl
  rw [hcore] at he ⊢
  have heq := return_edges_core_nil_inventory P debug nodes
  refine ⟨?_, heq⟩
  rw [← heq] at he
  obtain ⟨s, hs, d, hd, hp⟩ := (mem_core_fst P debug [] nodes e).mp he
  rw [(pair_edges_fst_mem P debug [] s d e hp).1]

/-- C3 witness: the amended theorem applied at a concrete offline input
where mechanism A fires. -/
theorem c3_offline_only_new_function_edges_witness :
    (⟨alice, roleR, new_function_reason⟩ : Edge).reason = new_function_reason ∧
      (return_edges ports1 none [alice, roleR] false).1 =
        (return_edges ports1 none [alice, roleR] false).2 :=
  c3_offline_only_new_function_edges ports1 [alice, roleR] false
    ⟨alice, roleR, new_function_reason⟩ (by decide)

/-- C4 counterexample: a Policy Evaluation Port error on the pair
(alice, roleBad) aborts the whole call — the pass does not continue, and
the edge provable for the healthy pair (alice, roleR) is not returned,
contradicting the claimed per-pair containment. -/
theorem c4_counterexample :
    return_edgesE portsE_bad false [] [alice, roleBad, roleR] =
      Except.error "malformed policy document" := by rfl

/-- C4 (amended): the source has no exception handling around the pair
loop, so a Policy Evaluation Port error raised while evaluating any pair
propagates out of `return_edges` and aborts the entire pass: no partial
edge sequence is returned. -/
theorem c4_port_error_aborts_pass (P : PortsE) (debug : Bool)
    (fl : List FunctionResource) (nodes : List Node) (s d : Node) (err : String)
    (hs : s ∈ nodes) (hd : d ∈ nodes)
    (hfail : pair_edgesE P debug fl s d = Except.error err) :
    ∃ msg, return_edgesE P debug fl nodes = Except.error msg := by
  unfold return_edgesE
  refine foldlM_error_of_mem _ nodes s hs (fun acc => ?_) ([], [])
  refine foldlM_error_of_mem _ nodes d hd (fun acc2 => ?_) acc
  exact ⟨err, by rw [show (do
    let pe ← pair_edgesE P debug fl s d
    pure (acc2.1 ++ pe.1, acc2.2 ++ pe.2) : Except String (List Edge × List Edge)) =
      Except.bind (pair_edgesE P debug fl s d)
        (fun pe => pure (acc2.1 ++ pe.1, acc2.2 ++ pe.2)) from rfl, hfail]; rfl⟩

/-- C4 witness: the amended theorem applied at the concrete erroring
input. -/
theorem c4_port_error_aborts_pass_witness :
    ∃ msg, return_edgesE portsE_bad false [] [alice, roleBad, roleR] =
      Except.error msg :=
  c4_port_error_aborts_pass portsE_bad false [] [alice, roleBad, roleR] alice roleBad
    "malformed policy document" (by decide) (by decide) (by rfl)

/-- C5: the resource-policy gate.  If the resource-policy evaluation of the
destination's trust policy for `lambda.amazonaws.com` yields anything other
than `SERVICE_MATCH`, no mechanism produces an edge for that ordered pair:
no edge naming the pair is ever written to the sink (and the returned list
is a subset of the sink writes). -/
theorem c5_resource_policy_gate (P : Ports) (debug : Bool)
    (fl : List FunctionResource) (nodes : List Node) (s d : Node)
    (hgate : assume_role_sim P debug s d ≠ ResourcePolicyEvalResult.SERVICE_MATCH)
    (e : Edge) (he : e ∈ (return_edges_core P debug fl nodes).2) :
    ¬(e.source = s ∧ e.destination = d) := by
  rintro ⟨h1, h2⟩
  obtain ⟨s2, hs2, d2, hd2, hp⟩ := (mem_core_snd P debug fl nodes e).mp he
  obtain ⟨hsrc, hdst⟩ := pair_edges_snd_mem P debug fl s2 d2 e hp
  rw [hsrc] at h1
  rw [hdst] at h2
  rw [h1, h2] at hp
  rw [pair_edges_gate_fail P debug fl s d hgate] at hp
  simp at hp

/-- C5 witness: the gate theorem applied with the gate failing for
(alice, roleS) while the healthy pair (alice, roleR) yields a sink edge. -/
theorem c5_resource_policy_gate_witness :
    ¬((⟨alice, roleR, new_function_reason⟩ : Edge).source = alice ∧
      (⟨alice, roleR, new_function_reason⟩ : Edge).destination = roleS) :=
  c5_resource_policy_gate ports1 false [] [alice, roleR, roleS] alice roleS
    (by decide) ⟨alice, roleR, new_function_reason⟩ (by decide)

/-- C6: mechanism-A conjunction.  For a pair passing all four gates, the
new-function edge is appended for that pair exactly when both the pass-role
check (with the `iam:PassedToService` context) and the wildcard
create-function check succeed. -/
theorem c6_mechanism_a_iff (P : Ports) (debug : Bool) (fl : List FunctionResource)
    (s d : Node) (hne : s ≠ d) (hadmin : s.is_admin = false)
    (hrole : str_contains d.arn ":role/" = true)
    (hgate : assume_role_sim P debug s d = ResourcePolicyEvalResult.SERVICE_MATCH) :
    (⟨s, d, new_function_reason⟩ : Edge) ∈ (pair_edges P debug fl s d).1 ↔
      (pass_role_check P debug s d = true ∧ create_function_check P debug s = true) := by
  unfold pair_edges
  rw [if_neg hne, if_neg (by simp [hadmin]), if_neg (by simp [hrole]),
    if_neg (by simp [hgate])]
  cases hpass : pass_role_check P debug s d <;>
    cases hcreate : create_function_check P debug s <;>
      simp [mechanism_a_edges, hpass, hcreate]

/-- C6 witness: the conjunction theorem applied at a concrete gate-passing
pair where both checks hold. -/
theorem c6_mechanism_a_iff_witness :
    ((⟨alice, roleR, new_function_reason⟩ : Edge) ∈
        (pair_edges ports1 false [] alice roleR).1 ↔
      (pass_role_check ports1 false alice roleR = true ∧
        create_function_check ports1 false alice = true)) :=
  c6_mechanism_a_iff ports1 false [] alice roleR (by decide) (by decide)
    (by decide) (by decide)

/-- C7: every edge in the list the method returns carries the mechanism-A
new-function reason and is also written to the diagnostic sink; mechanism-B
and C edges (whose reasons differ) never enter the returned list. -/
theorem c7_returned_edges_are_mechanism_a (P : Ports) (debug : Bool)
    (fl : List FunctionResource) (nodes : List Node) (e : Edge)
    (he : e ∈ (return_edges_core P debug fl nodes).1) :
    e.reason = new_function_reason ∧ e ∈ (return_edges_core P debug fl nodes).2 := by
  obtain ⟨s, hs, d, hd, hp⟩ := (mem_core_fst P debug fl nodes e).mp he
  obtain ⟨heq, hsnd⟩ := pair_edges_fst_mem P debug fl s d e hp
  exact ⟨by rw [heq], (mem_core_snd P debug fl nodes e).mpr ⟨s, hs, d, hd, hsnd⟩⟩

/-- C7 witness: the invariant applied to the edge returned at the
Scenario 4 input. -/
theorem c7_returned_edges_are_mechanism_a_witness :
    (⟨alice, roleR, new_function_reason⟩ : Edge).reason = new_function_reason ∧
      (⟨alice, roleR, new_function_reason⟩ : Edge) ∈
        (return_edges_core ports4 false [funcG] [alice, roleR]).2 :=
  c7_returned_edges_are_mechanism_a ports4 false [funcG] [alice, roleR]
    ⟨alice, roleR, new_function_reason⟩ (by decide)

/-- C8: determinism.  Two invocations with equal ports, equal session
(function inventory), equal principal list and equal debug flag return
equal `(result, sink)` pairs: the pass has no other input and no
randomized iteration. -/
theorem c8_deterministic (P P2 : Ports) (session session2 : Option Session)
    (nodes nodes2 : List Node) (debug debug2 : Bool)
    (hP : P = P2) (hs : session = session2) (hn : nodes = nodes2)
    (hd : debug = debug2) :
    return_edges P session nodes debug = return_edges P2 session2 nodes2 debug2 := by
  rw [hP, hs, hn, hd]

/-- C8 witness: determinism applied at a concrete repeated invocation. -/
theorem c8_deterministic_witness :
    return_edges ports1 none [alice, roleR] false =
      return_edges ports1 none [alice, roleR] false :=
  c8_deterministic ports1 ports1 none none [alice, roleR] [alice, roleR]
    false false rfl rfl rfl rfl

/-- C9: hoisting refinement.  The per-function code/configuration checks
depend only on the source and the function, so computing `func_data` once
per source before the destination loop (`return_edges_hoisted`) returns
exactly the same `(result, sink)` pair as the recompute-per-pair pass. -/
theorem c9_hoisting_refinement (P : Ports) (debug : Bool)
    (function_list : List FunctionResource) (nodes : List Node) :
    return_edges_hoisted P debug function_list nodes =
      return_edges_core P debug function_list nodes := rfl

/-- C10: frame condition.  One checker invocation leaves the principal set
and the function inventory in the state untouched; its only effects are an
append to the diagnostic sink and the construction of the returned edge
list. -/
theorem c10_frame_condition (P : Ports) (debug : Bool) (st : CheckerState) :
    (run_checker P debug st).1.nodes = st.nodes ∧
      (run_checker P debug st).1.function_list = st.function_list ∧
      (∃ written, (run_checker P debug st).1.sink = st.sink ++ written) ∧
      (run_checker P debug st).2 =
        (return_edges_core P debug st.function_list st.nodes).1 :=
  ⟨rfl, rfl, ⟨(return_edges_core P debug st.function_list st.nodes).2, rfl⟩, rfl⟩
